import Mathlib

/-!
Verification of the Hook Relay Next.js SDK.

The development shallowly embeds the two modules of the SDK:
the signature module (signPayload, verifySignature, timingSafeEqual)
and the request wrapper (withHookRelay / hookRelayHandler), together
with the outcome-report URL resolution of reportOutcome.

Host built-ins of the JavaScript runtime (parseInt, String(number),
HMAC-SHA256 via crypto.subtle, JSON.parse, Date.now, fetch) are not part
of the repository; they are embedded either as explicit executable
models (parseInt, String(number), hex encoding) or as parameters of the
definitions (the HMAC digest function, the JSON parser, the clock and
the network), so every theorem quantifies over the host behaviour.
-/

namespace HookRelay

/-! ## JavaScript host primitives -/

/-- Model of the JavaScript whitespace test used by parseInt: the
characters skipped before the optional sign (space, tab, line feed,
vertical tab, form feed, carriage return, no-break space, BOM). -/
def jsWhitespace (c : Char) : Bool :=
  c.toNat = 32 || c.toNat = 9 || c.toNat = 10 || c.toNat = 11 ||
  c.toNat = 12 || c.toNat = 13 || c.toNat = 160 || c.toNat = 65279

/-- Decimal digit test, by code point. -/
def isDigitChar (c : Char) : Bool :=
  decide (48 ≤ c.toNat) && decide (c.toNat ≤ 57)

/-- Accumulate the value of a list of decimal digit characters, most
significant first, exactly as a left-to-right scan does. -/
def digitsToNat (ds : List Char) : Nat :=
  ds.foldl (fun acc c => acc * 10 + (c.toNat - 48)) 0

/-- Value of the longest prefix of decimal digits; none when the prefix
is empty (the NaN case of parseInt). -/
def digitsPrefix (cs : List Char) : Option Nat :=
  let ds := cs.takeWhile isDigitChar
  if ds.isEmpty then none else some (digitsToNat ds)

/-- Model of the JavaScript built-in parseInt(s, 10): skip leading
whitespace, read an optional sign, then the longest prefix of decimal
digits; none models NaN.  (JavaScript numbers lose precision beyond
2^53; the model is exact, which agrees with the code on every
timestamp-sized input.) -/
def jsParseIntBase10 (s : String) : Option Int :=
  match s.data.dropWhile jsWhitespace with
  | [] => none
  | c :: rest =>
    if c = '-' then (digitsPrefix rest).map (fun n => -(Int.ofNat n))
    else if c = '+' then (digitsPrefix rest).map Int.ofNat
    else (digitsPrefix (c :: rest)).map Int.ofNat

/-- Digit-list worker, structurally recursive on a fuel bound so that
it reduces inside the kernel; the fuel never runs out when it starts
above n. -/
def natDecDigitsAux (fuel : Nat) (n : Nat) : List Char :=
  match fuel with
  | 0 => []
  | fuel + 1 =>
    if n < 10 then [Char.ofNat (48 + n)]
    else natDecDigitsAux fuel (n / 10) ++ [Char.ofNat (48 + n % 10)]

/-- Decimal digit list of a natural number, most significant first:
the digits produced by the JavaScript String(number) conversion. -/
def natDecDigits (n : Nat) : List Char :=
  natDecDigitsAux (n + 1) n

/-- Model of the JavaScript String(number) conversion on integral
values: canonical decimal rendering, with a leading minus sign for
negative values. -/
def jsIntToString (i : Int) : String :=
  if i < 0 then "-" ++ String.mk (natDecDigits i.natAbs)
  else String.mk (natDecDigits i.natAbs)

/-- One lowercase hexadecimal digit. -/
def hexChar (n : Nat) : Char :=
  if n < 10 then Char.ofNat (48 + n) else Char.ofNat (87 + n)

/-- Model of b.toString(16).padStart(2, the zero digit) for a byte:
two lowercase hexadecimal digits. -/
def byteToHex (b : Nat) : String :=
  String.mk [hexChar (b / 16), hexChar (b % 16)]

/-- Hex digest of a byte list, as the map-and-join in signPayload. -/
def bytesToHex (bs : List Nat) : String :=
  String.join (bs.map byteToHex)

/-- Model of the JavaScript s.startsWith(pre). -/
def jsStartsWith (s pre : String) : Bool :=
  pre.data.isPrefixOf s.data

/-- Model of the JavaScript s.slice(n) for a nonnegative index. -/
def jsSliceFrom (s : String) (n : Nat) : String :=
  String.mk (s.data.drop n)

/-! ## Signature module (services/crypto.ts) -/

/-- The constant SIGNATURE_VERSION. -/
def SIGNATURE_VERSION : String := "v1"

/-- The constant TIMESTAMP_TOLERANCE_SECONDS (5 minutes). -/
def TIMESTAMP_TOLERANCE_SECONDS : Nat := 300

/-- HMAC digest functions: the shape of the host crypto.subtle
HMAC-SHA256 primitive, mapping a secret and a message to a byte list.
The SDK treats it as a black box, so the development quantifies over
it. -/
def HmacFun : Type := String → String → List Nat

/-- Embedding of signPayload: sign the string
String(timestamp) ++ "." ++ payload with the secret and return
"v1=" ++ the lowercase hex digest. -/
def signPayload (hmac : HmacFun) (timestamp : Int) (payload secret : String) : String :=
  let signedPayload := jsIntToString timestamp ++ "." ++ payload
  let hexDigest := bytesToHex (hmac secret signedPayload)
  SIGNATURE_VERSION ++ "=" ++ hexDigest

/-- Embedding of timingSafeEqual: false on a length mismatch, otherwise
OR-accumulate the XOR of the character codes over every position and
compare the accumulator with zero. -/
def timingSafeEqual (a b : String) : Bool :=
  if a.length ≠ b.length then false
  else
    let result := (List.zip a.data b.data).foldl
      (fun acc p => acc ||| (p.1.toNat ^^^ p.2.toNat)) 0
    result == 0

/-- Embedding of verifySignature: parse the timestamp header with
parseInt, reject on NaN or a skew beyond the tolerance, require the
"v1=" prefix, recompute the signature over the parsed (canonical)
timestamp and compare digests with timingSafeEqual.  now stands for
Math.floor(Date.now() / 1000). -/
def verifySignature (hmac : HmacFun) (now : Int)
    (timestamp payload signatureHeader secret : String) : Bool :=
  match jsParseIntBase10 timestamp with
  | none => false
  | some ts =>
    if TIMESTAMP_TOLERANCE_SECONDS < (now - ts).natAbs then false
    else if jsStartsWith signatureHeader (SIGNATURE_VERSION ++ "=") = false then false
    else
      let expectedSignature := jsSliceFrom signatureHeader (SIGNATURE_VERSION.length + 1)
      let computed := signPayload hmac ts payload secret
      let computedSignature := jsSliceFrom computed (SIGNATURE_VERSION.length + 1)
      timingSafeEqual computedSignature expectedSignature

/-! ## Outcome reporting (services/outcome.ts) -/

/-- The constant DEFAULT_API_URL. -/
def DEFAULT_API_URL : String := "https://api.hookrelay.io"

/-- The URL computed by reportOutcome before the POST:
baseUrl = apiUrl ?? process.env HOOKRELAY_API_URL ?? DEFAULT_API_URL,
then baseUrl ++ "/v1/events/" ++ eventId ++ "/outcome".  The two
nullish arguments are the optional apiUrl parameter and the optional
environment variable. -/
def reportOutcomeUrl (eventId : String) (apiUrl envApiUrl : Option String) : String :=
  let baseUrl := apiUrl.getD (envApiUrl.getD DEFAULT_API_URL)
  baseUrl ++ "/v1/events/" ++ eventId ++ "/outcome"

/-! ## Data model of the request wrapper (types.ts, constants/headers.ts) -/

/-- JSON values, the possible results of the host JSON.parse. -/
inductive JsonValue where
  | null : JsonValue
  | bool (b : Bool) : JsonValue
  | num (n : Int) : JsonValue
  | str (s : String) : JsonValue
  | arr (elems : List JsonValue) : JsonValue
  | obj (fields : List (String × JsonValue)) : JsonValue

/-- The header-name constants of constants/headers.ts. -/
def HEADERS.EVENT_ID : String := "X-HookRelay-Event-Id"

/-- Provider header name. -/
def HEADERS.PROVIDER : String := "X-HookRelay-Provider"

/-- Attempt header name. -/
def HEADERS.ATTEMPT : String := "X-HookRelay-Attempt"

/-- Replayed header name. -/
def HEADERS.REPLAYED : String := "X-HookRelay-Replayed"

/-- Timestamp header name. -/
def HEADERS.TIMESTAMP : String := "X-HookRelay-Timestamp"

/-- Signature header name. -/
def HEADERS.SIGNATURE : String := "X-HookRelay-Signature"

/-- Outcome status: success or failure. -/
inductive OutcomeStatus where
  | success : OutcomeStatus
  | failure : OutcomeStatus

/-- The structured error record of an outcome report. -/
structure ErrorInfo where
  name : String
  message : String
  stack : Option String

/-- The OutcomePayload sent to the outcome endpoint. -/
structure OutcomePayload where
  status : OutcomeStatus
  durationMs : Nat
  error : Option ErrorInfo

/-- One call to reportOutcome made by the wrapper: the event id it was
addressed to and the payload it carried. -/
structure OutcomeReport where
  eventId : String
  outcome : OutcomePayload

/-- A value thrown by the user callback: either an instance of Error
(with name, message and optional stack) or any other value, recorded
through its String(value) rendering. -/
inductive ThrownValue where
  | errorObj (name message : String) (stack : Option String) : ThrownValue
  | nonError (stringValue : String) : ThrownValue

/-- The error record built in the catch block of the wrapper:
name, message and stack of an Error instance, otherwise
name "Error" with the stringified value as message. -/
def errInfoOf : ThrownValue → ErrorInfo
  | .errorObj name message stack => ⟨name, message, stack⟩
  | .nonError s => ⟨"Error", s, none⟩

/-- Bodies of the JSON responses the wrapper produces.  The object
shapes are distinct: an error alone, an error with the event id
(the 500 case), or the acceptance record (the 202 case). -/
inductive ResponseBody where
  | errorMsg (error : String) : ResponseBody
  | errorWithEvent (error eventId : String) : ResponseBody
  | accepted (eventId : String) : ResponseBody

/-- An HTTP response: status code and JSON body. -/
structure HttpResponse where
  status : Nat
  body : ResponseBody

/-- The options of withHookRelay.  timeoutMs and enforceIdempotency are
declared but never read by the wrapper. -/
structure HookRelayOptions where
  provider : String
  timeoutMs : Option Nat := none
  enforceIdempotency : Option Bool := none
  allowReplay : Option Bool := none

/-- The event object handed to the user callback.  attempt is an
Option Int: none models the NaN a non-numeric attempt header produces
under parseInt.  The no-op acknowledge closure is omitted. -/
structure HookRelayEvent where
  id : String
  provider : String
  providerEventId : JsonValue
  payload : JsonValue
  receivedAt : String
  attempt : Option Int
  replayed : Bool

/-- An incoming request: the header map (request.headers.get) and the
raw body text (await request.text()). -/
structure HookRequest where
  headersGet : String → Option String
  body : String

/-- The ambient host state the wrapper reads: the two environment
variables, the clock, the HMAC primitive, the JSON parser, the
receivedAt timestamp string, the measured duration, and whether the
outcome POST succeeds. -/
structure JsEnv where
  hookrelaySecret : Option String
  now : Int
  hmacSha256 : HmacFun
  jsonParse : String → Option JsonValue
  receivedAt : String
  elapsedMs : Nat
  reportOk : Bool

/-- What one invocation of the wrapped handler produces when it does
not throw: the list of reportOutcome calls it made, in order, and the
HTTP response it returned. -/
structure HandlerResult where
  reports : List OutcomeReport
  response : HttpResponse

/-! ## Request wrapper (withHookRelay.ts) -/

/-- JavaScript truthiness of a nullable string: null and the empty
string are falsy.  Returns the string itself when truthy, mirroring the
narrowing after an early return. -/
def truthy : Option String → Option String
  | none => none
  | some s => if s = "" then none else some s

/-- Property lookup on a parsed JSON object (last write wins is already
folded into the object representation produced by the parser). -/
def lookupField : List (String × JsonValue) → String → Option JsonValue
  | [], _ => none
  | (k, v) :: rest, key => if k = key then some v else lookupField rest key

/-- The JavaScript nullish coalescing v ?? d on a possibly absent JSON
value: undefined (none) and null both fall back. -/
def jsCoalesce (v : Option JsonValue) (d : JsonValue) : JsonValue :=
  match v with
  | none => d
  | some .null => d
  | some j => j

/-- Embedding of extractProviderEventId: undefined unless the payload
is a truthy object; for the stripe provider read the top-level id
property, every other provider yields undefined. -/
def extractProviderEventId (provider : String) (payload : JsonValue) : Option JsonValue :=
  match payload with
  | .obj fields => if provider = "stripe" then lookupField fields "id" else none
  | _ => none

/-- The event object built by the wrapper, from the validated event id,
the parsed payload and the raw attempt and replayed headers. -/
def mkEvent (env : JsEnv) (opts : HookRelayOptions) (eventId : String)
    (payload : JsonValue) (attemptStr replayedStr : Option String) : HookRelayEvent :=
  { id := eventId
    provider := opts.provider
    providerEventId := jsCoalesce (extractProviderEventId opts.provider payload) (.str eventId)
    payload := payload
    receivedAt := env.receivedAt
    attempt := match truthy attemptStr with
      | none => some 1
      | some s => jsParseIntBase10 s
    replayed := replayedStr == some "true" }

/-- A quote character, used in the provider-mismatch message. -/
def quoteChar : String := String.singleton (Char.ofNat 39)

/-- Embedding of the handler returned by withHookRelay.  A thrown
HookRelayConfigError is the .error case; every other path returns the
reportOutcome calls made and the response.  cb is the user callback,
which either completes or throws a value.  reported is the awaited
result of the outcome POST; the code only logs when it is false, so it
does not influence the response or the report list. -/
def hookRelayHandler (env : JsEnv) (opts : HookRelayOptions)
    (cb : HookRelayEvent → Except ThrownValue Unit) (req : HookRequest) :
    Except String HandlerResult :=
  match truthy env.hookrelaySecret with
  | none => .error "HOOKRELAY_SECRET environment variable is not configured"
  | some secret =>
    match truthy (req.headersGet HEADERS.EVENT_ID),
          truthy (req.headersGet HEADERS.SIGNATURE),
          truthy (req.headersGet HEADERS.TIMESTAMP) with
    | some eventId, some signatureH, some timestamp =>
      if req.headersGet HEADERS.PROVIDER ≠ some opts.provider then
        .ok ⟨[], ⟨400, .errorMsg ("Expected provider " ++ quoteChar ++ opts.provider
            ++ quoteChar ++ ", got " ++ quoteChar
            ++ ((req.headersGet HEADERS.PROVIDER).getD "unknown") ++ quoteChar)⟩⟩
      else
        let rawBody := req.body
        if verifySignature env.hmacSha256 env.now timestamp rawBody signatureH secret = false then
          .ok ⟨[], ⟨401, .errorMsg "Invalid signature"⟩⟩
        else
          match env.jsonParse rawBody with
          | none => .ok ⟨[], ⟨400, .errorMsg "Invalid JSON payload"⟩⟩
          | some payload =>
            let replayed : Bool := req.headersGet HEADERS.REPLAYED == some "true"
            if replayed && (opts.allowReplay == some false) then
              .ok ⟨[], ⟨400, .errorMsg "Replayed events are not allowed"⟩⟩
            else
              let event := mkEvent env opts eventId payload
                (req.headersGet HEADERS.ATTEMPT) (req.headersGet HEADERS.REPLAYED)
              match cb event with
              | .ok _ =>
                let report : OutcomeReport := ⟨eventId, ⟨.success, env.elapsedMs, none⟩⟩
                let _reported := env.reportOk
                .ok ⟨[report], ⟨202, .accepted eventId⟩⟩
              | .error err =>
                let info := errInfoOf err
                let report : OutcomeReport := ⟨eventId, ⟨.failure, env.elapsedMs, some info⟩⟩
                let _reported := env.reportOk
                .ok ⟨[report], ⟨500, .errorWithEvent info.message eventId⟩⟩
    | _, _, _ =>
      .ok ⟨[], ⟨400, .errorMsg "Missing required Hook Relay headers"⟩⟩

/-! ## Concrete fixtures for witness instances -/

/-- A toy digest function depending on both arguments. -/
def hmacFixA : HmacFun := fun k m => [k.length + m.length]

/-- A constant digest function. -/
def hmacFixB : HmacFun := fun _ _ => [0]

/-- A digest function depending on the message length only, so that
messages of different lengths get different digests. -/
def hmacFixC : HmacFun := fun _ m => [m.length]

/-- A host environment fixture: secret configured, clock at 300, the
length digest, and a parser accepting exactly the empty object. -/
def envFix : JsEnv :=
  { hookrelaySecret := some "sec"
    now := 300
    hmacSha256 := hmacFixC
    jsonParse := fun s => if s = "\x7b\x7d" then some (.obj []) else none
    receivedAt := "2026-10-12T00:00:00.000Z"
    elapsedMs := 5
    reportOk := true }

/-- A request fixture carrying all headers and a correctly signed empty
object body. -/
def reqFix : HookRequest :=
  { headersGet := fun n =>
      if n = HEADERS.EVENT_ID then some "evt_1"
      else if n = HEADERS.PROVIDER then some "stripe"
      else if n = HEADERS.TIMESTAMP then some "300"
      else if n = HEADERS.SIGNATURE then some (signPayload hmacFixC 300 "\x7b\x7d" "sec")
      else if n = HEADERS.REPLAYED then some "false"
      else if n = HEADERS.ATTEMPT then some "1"
      else none
    body := "\x7b\x7d" }

/-- reqFix without the event id header. -/
def reqMissingFix : HookRequest :=
  { reqFix with headersGet := fun n =>
      if n = HEADERS.EVENT_ID then none else reqFix.headersGet n }

/-- reqFix with the replayed header set to true. -/
def reqReplayFix : HookRequest :=
  { reqFix with headersGet := fun n =>
      if n = HEADERS.REPLAYED then some "true" else reqFix.headersGet n }

/-- reqFix with a body of a different length, so its signature header
no longer matches. -/
def reqBadSigFix : HookRequest := { reqFix with body := "longer" }

/-- reqFix with an unparseable body of the same length, so the
signature still matches but JSON parsing fails. -/
def reqBadJsonFix : HookRequest := { reqFix with body := "[]" }

/-- Options fixture for the stripe provider with defaults. -/
def optsFix : HookRelayOptions := { provider := "stripe" }

/-- Options fixture with replays rejected. -/
def optsNoReplayFix : HookRelayOptions := { provider := "stripe", allowReplay := some false }

/-- A callback that completes. -/
def cbOkFix : HookRelayEvent → Except ThrownValue Unit := fun _ => .ok ()

/-- A callback that throws an Error instance. -/
def cbErrFix : HookRelayEvent → Except ThrownValue Unit :=
  fun _ => .error (.errorObj "Error" "Database connection failed" none)

/-! ## Helper lemmas -/

theorem lor_eq_zero_iff (a b : Nat) : a ||| b = 0 ↔ a = 0 ∧ b = 0 := by
  constructor
  · intro h
    have hbit : ∀ i, a.testBit i = false ∧ b.testBit i = false := by
      intro i
      have hcong := congrArg (fun x => Nat.testBit x i) h
      simpa [Nat.testBit_lor] using hcong
    exact ⟨Nat.zero_of_testBit_eq_false (fun i => (hbit i).1),
      Nat.zero_of_testBit_eq_false (fun i => (hbit i).2)⟩
  · rintro ⟨rfl, rfl⟩
    rfl

theorem char_toNat_injective (c d : Char) (h : c.toNat = d.toNat) : c = d := by
  have h1 : Char.ofNat c.toNat = Char.ofNat d.toNat := congrArg Char.ofNat h
  rwa [Char.ofNat_toNat, Char.ofNat_toNat] at h1

theorem foldl_lor_xor_eq_zero (l : List (Char × Char)) (acc : Nat) :
    (l.foldl (fun acc p => acc ||| (p.1.toNat ^^^ p.2.toNat)) acc = 0) ↔
    (acc = 0 ∧ ∀ p ∈ l, p.1 = p.2) := by
  induction l generalizing acc with
  | nil => simp
  | cons p l ih =>
    rw [List.foldl_cons, ih, lor_eq_zero_iff]
    constructor
    · rintro ⟨⟨h1, h2⟩, h3⟩
      have hp : p.1 = p.2 := char_toNat_injective _ _ (Nat.xor_eq_zero.mp h2)
      exact ⟨h1, by simpa [hp] using h3⟩
    · rintro ⟨h1, h2⟩
      have hp : p.1 = p.2 := h2 p (List.mem_cons_self _ _)
      refine ⟨⟨h1, by simp [hp]⟩, fun q hq => h2 q (List.mem_cons_of_mem _ hq)⟩

theorem zip_self_eq : ∀ (l1 l2 : List Char), l1.length = l2.length →
    (∀ p ∈ List.zip l1 l2, p.1 = p.2) → l1 = l2
  | [], [], _, _ => rfl
  | [], _ :: _, h, _ => by simp at h
  | _ :: _, [], h, _ => by simp at h
  | a :: l1, b :: l2, h, hp => by
    have hlen : l1.length = l2.length := by simpa using h
    have hab : a = b := hp (a, b) (by simp [List.zip_cons_cons])
    have htail : l1 = l2 := zip_self_eq l1 l2 hlen
      (fun q hq => hp q (by simp [List.zip_cons_cons, hq]))
    rw [hab, htail]

theorem mem_zip_self : ∀ (l : List Char) (p : Char × Char), p ∈ List.zip l l → p.1 = p.2
  | [], _, h => by simp at h
  | a :: l, p, h => by
    rw [List.zip_cons_cons, List.mem_cons] at h
    rcases h with h | h
    · rw [h]
    · exact mem_zip_self l p h

theorem string_length_data (s : String) : s.length = s.data.length := rfl

theorem timingSafeEqual_eq_true_iff (a b : String) :
    timingSafeEqual a b = true ↔ a = b := by
  unfold timingSafeEqual
  by_cases h : a.length = b.length
  · rw [if_neg (by simpa using h)]
    have hlen : a.data.length = b.data.length := by
      rw [← string_length_data, ← string_length_data]
      exact h
    simp only [beq_iff_eq]
    rw [foldl_lor_xor_eq_zero, String.ext_iff]
    constructor
    · rintro ⟨-, h2⟩
      exact zip_self_eq _ _ hlen h2
    · intro heq
      refine ⟨rfl, ?_⟩
      rw [heq]
      exact fun p hp => mem_zip_self _ p hp
  · rw [if_pos (by simpa using h)]
    simp only [Bool.false_eq_true, false_iff]
    intro heq
    exact h (by rw [heq])

theorem timingSafeEqual_self (a : String) : timingSafeEqual a a = true :=
  (timingSafeEqual_eq_true_iff a a).mpr rfl

theorem natDecDigitsAux_fuel (f1 : Nat) : ∀ (f2 n : Nat), n < f1 → n < f2 →
    natDecDigitsAux f1 n = natDecDigitsAux f2 n := by
  induction f1 with
  | zero => omega
  | succ f1 ih =>
    intro f2 n h1 h2
    cases f2 with
    | zero => omega
    | succ f2 =>
      simp only [natDecDigitsAux]
      by_cases hn : n < 10
      · simp [hn]
      · simp only [hn, if_false]
        have hd : n / 10 < n := Nat.div_lt_self (by omega) (by omega)
        rw [ih f2 (n / 10) (by omega) (by omega)]

theorem natDecDigits_eq (n : Nat) :
    natDecDigits n = if n < 10 then [Char.ofNat (48 + n)]
      else natDecDigits (n / 10) ++ [Char.ofNat (48 + n % 10)] := by
  show (if n < 10 then [Char.ofNat (48 + n)]
    else natDecDigitsAux n (n / 10) ++ [Char.ofNat (48 + n % 10)]) = _
  by_cases hn : n < 10
  · rw [if_pos hn, if_pos hn]
  · rw [if_neg hn, if_neg hn]
    have hd : n / 10 < n := Nat.div_lt_self (by omega) (by omega)
    congr 1
    exact natDecDigitsAux_fuel n (n / 10 + 1) (n / 10) (by omega) (by omega)

theorem isDigitChar_ofNat_digit (d : Nat) (h : d < 10) :
    isDigitChar (Char.ofNat (48 + d)) = true := by
  interval_cases d <;> decide

theorem toNat_ofNat_digit (d : Nat) (h : d < 10) :
    (Char.ofNat (48 + d)).toNat = 48 + d := by
  interval_cases d <;> decide

theorem natDecDigits_ne_nil (n : Nat) : natDecDigits n ≠ [] := by
  rw [natDecDigits_eq]
  split
  · simp
  · simp

theorem natDecDigits_all_digits (n : Nat) : ∀ c ∈ natDecDigits n, isDigitChar c = true := by
  induction n using Nat.strong_induction_on with
  | _ n ih =>
    rw [natDecDigits_eq]
    split
    · next h =>
      intro c hc
      rw [List.mem_singleton] at hc
      subst hc
      exact isDigitChar_ofNat_digit n h
    · next h =>
      intro c hc
      rw [List.mem_append] at hc
      rcases hc with hc | hc
      · exact ih (n / 10) (Nat.div_lt_self (by omega) (by omega)) c hc
      · rw [List.mem_singleton] at hc
        subst hc
        exact isDigitChar_ofNat_digit (n % 10) (Nat.mod_lt _ (by omega))

theorem digitsToNat_append_digit (ds : List Char) (c : Char) :
    digitsToNat (ds ++ [c]) = digitsToNat ds * 10 + (c.toNat - 48) := by
  unfold digitsToNat
  rw [List.foldl_append]
  rfl

theorem digitsToNat_natDecDigits (n : Nat) : digitsToNat (natDecDigits n) = n := by
  induction n using Nat.strong_induction_on with
  | _ n ih =>
    rw [natDecDigits_eq]
    split
    · next h =>
      unfold digitsToNat
      rw [List.foldl_cons, List.foldl_nil, toNat_ofNat_digit n h]
      omega
    · next h =>
      rw [digitsToNat_append_digit, ih (n / 10) (Nat.div_lt_self (by omega) (by omega)),
        toNat_ofNat_digit (n % 10) (Nat.mod_lt _ (by omega))]
      omega

theorem digit_not_ws (c : Char) (h : isDigitChar c = true) : jsWhitespace c = false := by
  unfold isDigitChar at h
  unfold jsWhitespace
  simp only [Bool.and_eq_true, decide_eq_true_eq] at h
  simp only [Bool.or_eq_false_iff, decide_eq_false_iff_not]
  omega

theorem digit_ne_minus (c : Char) (h : isDigitChar c = true) : c ≠ '-' := by
  intro e
  subst e
  exact absurd h (by decide)

theorem digit_ne_plus (c : Char) (h : isDigitChar c = true) : c ≠ '+' := by
  intro e
  subst e
  exact absurd h (by decide)

theorem digitsPrefix_all_digits (ds : List Char) (hne : ds ≠ [])
    (hall : ∀ c ∈ ds, isDigitChar c = true) :
    digitsPrefix ds = some (digitsToNat ds) := by
  unfold digitsPrefix
  rw [List.takeWhile_eq_self_iff.mpr hall]
  rw [if_neg (by simpa [List.isEmpty_iff] using hne)]

theorem jsParseIntBase10_cons (c : Char) (rest : List Char) (s : String)
    (hdata : s.data.dropWhile jsWhitespace = c :: rest) :
    jsParseIntBase10 s =
      (if c = '-' then (digitsPrefix rest).map (fun n => -(Int.ofNat n))
       else if c = '+' then (digitsPrefix rest).map Int.ofNat
       else (digitsPrefix (c :: rest)).map Int.ofNat) := by
  unfold jsParseIntBase10
  rw [hdata]

theorem parseInt_intToString (i : Int) : jsParseIntBase10 (jsIntToString i) = some i := by
  unfold jsIntToString
  split
  · next hneg =>
    obtain ⟨c, rest, hcr⟩ := List.exists_cons_of_ne_nil (natDecDigits_ne_nil i.natAbs)
    have hdata : ("-" ++ String.mk (natDecDigits i.natAbs)).data.dropWhile jsWhitespace =
        '-' :: natDecDigits i.natAbs := by
      rw [String.data_append]
      rfl
    rw [jsParseIntBase10_cons _ _ _ hdata, if_pos rfl,
      digitsPrefix_all_digits _ (natDecDigits_ne_nil _) (natDecDigits_all_digits _),
      digitsToNat_natDecDigits]
    simp only [Option.map_some']
    congr 1
    simp only [Int.ofNat_eq_coe]
    omega
  · next hneg =>
    obtain ⟨c, rest, hcr⟩ := List.exists_cons_of_ne_nil (natDecDigits_ne_nil i.natAbs)
    have hcd : isDigitChar c = true :=
      natDecDigits_all_digits i.natAbs c (by rw [hcr]; exact List.mem_cons_self _ _)
    have hdata : (String.mk (natDecDigits i.natAbs)).data.dropWhile jsWhitespace =
        c :: rest := by
      show (natDecDigits i.natAbs).dropWhile jsWhitespace = c :: rest
      rw [hcr, List.dropWhile_cons, digit_not_ws c hcd]
      simp
    rw [jsParseIntBase10_cons _ _ _ hdata, if_neg (digit_ne_minus c hcd),
      if_neg (digit_ne_plus c hcd), ← hcr,
      digitsPrefix_all_digits _ (natDecDigits_ne_nil _) (natDecDigits_all_digits _),
      digitsToNat_natDecDigits]
    simp only [Option.map_some']
    congr 1
    simp only [Int.ofNat_eq_coe]
    omega

theorem signPayload_split (hmac : HmacFun) (ts : Int) (payload secret : String) :
    signPayload hmac ts payload secret =
      (SIGNATURE_VERSION ++ "=") ++
        bytesToHex (hmac secret (jsIntToString ts ++ "." ++ payload)) := rfl

theorem jsStartsWith_append (pre rest : String) : jsStartsWith (pre ++ rest) pre = true := by
  unfold jsStartsWith
  rw [String.data_append]
  simp [ List.isPrefixOf_iff_prefix]

theorem jsSliceFrom_append (pre rest : String) :
    jsSliceFrom (pre ++ rest) pre.length = rest := by
  unfold jsSliceFrom
  rw [String.data_append, string_length_data, List.drop_left]

theorem sigVersion_len : SIGNATURE_VERSION.length + 1 = (SIGNATURE_VERSION ++ "=").length := rfl

theorem signPayload_slice (hmac : HmacFun) (ts : Int) (payload secret : String) :
    jsSliceFrom (signPayload hmac ts payload secret) (SIGNATURE_VERSION.length + 1) =
      bytesToHex (hmac secret (jsIntToString ts ++ "." ++ payload)) := by
  rw [signPayload_split, sigVersion_len, jsSliceFrom_append]

theorem verifySignature_parsed (hmac : HmacFun) (now : Int)
    (tsStr payload sigH secret : String) (n : Int)
    (hp : jsParseIntBase10 tsStr = some n) :
    verifySignature hmac now tsStr payload sigH secret =
      (if TIMESTAMP_TOLERANCE_SECONDS < (now - n).natAbs then false
       else if jsStartsWith sigH (SIGNATURE_VERSION ++ "=") = false then false
       else timingSafeEqual
         (jsSliceFrom (signPayload hmac n payload secret) (SIGNATURE_VERSION.length + 1))
         (jsSliceFrom sigH (SIGNATURE_VERSION.length + 1))) := by
  unfold verifySignature
  rw [hp]

theorem verify_accepts_canonical (hmac : HmacFun) (now : Int)
    (tsStr payload secret : String) (n : Int)
    (hp : jsParseIntBase10 tsStr = some n)
    (hskew : (now - n).natAbs ≤ 300) :
    verifySignature hmac now tsStr payload (signPayload hmac n payload secret) secret = true := by
  rw [verifySignature_parsed hmac now tsStr payload _ secret n hp]
  have h1 : ¬ (TIMESTAMP_TOLERANCE_SECONDS < (now - n).natAbs) := by
    unfold TIMESTAMP_TOLERANCE_SECONDS
    omega
  rw [if_neg h1]
  have h2 : jsStartsWith (signPayload hmac n payload secret) (SIGNATURE_VERSION ++ "=") = true := by
    rw [signPayload_split]
    exact jsStartsWith_append _ _
  rw [h2]
  rw [if_neg (by simp)]
  exact timingSafeEqual_self _

theorem verify_requires_canonical_digest (hmac : HmacFun) (now : Int)
    (tsStr payload sigH secret : String) (n : Int)
    (hp : jsParseIntBase10 tsStr = some n)
    (hv : verifySignature hmac now tsStr payload sigH secret = true) :
    jsSliceFrom sigH (SIGNATURE_VERSION.length + 1) =
      jsSliceFrom (signPayload hmac n payload secret) (SIGNATURE_VERSION.length + 1) := by
  rw [verifySignature_parsed hmac now tsStr payload sigH secret n hp] at hv
  by_cases h1 : TIMESTAMP_TOLERANCE_SECONDS < (now - n).natAbs
  · rw [if_pos h1] at hv
    exact absurd hv (by simp)
  · rw [if_neg h1] at hv
    by_cases h2 : jsStartsWith sigH (SIGNATURE_VERSION ++ "=") = false
    · rw [if_pos (by simp [h2])] at hv
      exact absurd hv (by simp)
    · rw [if_neg (by simpa using h2)] at hv
      exact ((timingSafeEqual_eq_true_iff _ _).mp hv).symm

theorem hookRelayHandler_gates (env : JsEnv) (opts : HookRelayOptions)
    (cb : HookRelayEvent → Except ThrownValue Unit) (req : HookRequest)
    (sec e sg t : String)
    (hsec : truthy env.hookrelaySecret = some sec)
    (he : truthy (req.headersGet HEADERS.EVENT_ID) = some e)
    (hsg : truthy (req.headersGet HEADERS.SIGNATURE) = some sg)
    (ht : truthy (req.headersGet HEADERS.TIMESTAMP) = some t)
    (hp : req.headersGet HEADERS.PROVIDER = some opts.provider) :
    hookRelayHandler env opts cb req =
      (if verifySignature env.hmacSha256 env.now t req.body sg sec = false then
        .ok ⟨[], ⟨401, .errorMsg "Invalid signature"⟩⟩
      else
        match env.jsonParse req.body with
        | none => .ok ⟨[], ⟨400, .errorMsg "Invalid JSON payload"⟩⟩
        | some payload =>
          if (req.headersGet HEADERS.REPLAYED == some "true")
              && (opts.allowReplay == some false) then
            .ok ⟨[], ⟨400, .errorMsg "Replayed events are not allowed"⟩⟩
          else
            match cb (mkEvent env opts e payload (req.headersGet HEADERS.ATTEMPT)
                (req.headersGet HEADERS.REPLAYED)) with
            | .ok _ =>
              .ok ⟨[⟨e, ⟨.success, env.elapsedMs, none⟩⟩], ⟨202, .accepted e⟩⟩
            | .error err =>
              .ok ⟨[⟨e, ⟨.failure, env.elapsedMs, some (errInfoOf err)⟩⟩],
                ⟨500, .errorWithEvent (errInfoOf err).message e⟩⟩) := by
  unfold hookRelayHandler
  rw [hsec, he, hsg, ht, hp]
  simp only [ne_eq, not_true_eq_false, if_false]

/-! ## Claim theorems: signature module -/

/-- Claim C1: for every integer timestamp ts with |now - ts| at most 300
seconds, every payload string and every secret (and every HMAC digest
function of the host), verifying String(ts), the payload and the header
produced by signPayload over the same timestamp, payload and secret
returns true. -/
theorem sign_then_verify_roundtrip (hmac : HmacFun) (now ts : Int)
    (payload secret : String) (h : (now - ts).natAbs ≤ 300) :
    verifySignature hmac now (jsIntToString ts) payload
      (signPayload hmac ts payload secret) secret = true :=
  verify_accepts_canonical hmac now (jsIntToString ts) payload secret ts
    (parseInt_intToString ts) h

/-- Witness for C1 at timestamp 900 against clock 1000, with a concrete
digest function. -/
theorem sign_then_verify_roundtrip_witness :
    ((1000 : Int) - 900).natAbs ≤ 300 ∧
    verifySignature hmacFixA 1000 (jsIntToString 900) "payload"
      (signPayload hmacFixA 900 "payload" "secret") "secret" = true :=
  ⟨by decide, sign_then_verify_roundtrip hmacFixA 1000 900 "payload" "secret" (by decide)⟩

/-- Claim C3: verifySignature returns false (it is total, so it never
throws) whenever the timestamp header does not parse to an integer, or
parses to a value more than 300 seconds from now — for every payload,
secret and signature header, including an otherwise-correct one. -/
theorem verify_rejects_bad_or_stale_timestamp (hmac : HmacFun) (now : Int)
    (timestamp payload sigH secret : String)
    (h : (jsParseIntBase10 timestamp).elim True (fun ts => 300 < (now - ts).natAbs)) :
    verifySignature hmac now timestamp payload sigH secret = false := by
  cases hp : jsParseIntBase10 timestamp with
  | none =>
    unfold verifySignature
    rw [hp]
  | some ts =>
    rw [hp] at h
    simp only [Option.elim] at h
    rw [verifySignature_parsed hmac now timestamp payload sigH secret ts hp,
      if_pos (by unfold TIMESTAMP_TOLERANCE_SECONDS; omega)]

/-- Witness for C3 at a non-numeric timestamp header. -/
theorem verify_rejects_bad_or_stale_timestamp_witness :
    verifySignature hmacFixB 0 "not-a-number" "payload" "v1=00" "secret" = false :=
  verify_rejects_bad_or_stale_timestamp hmacFixB 0 "not-a-number" "payload"
    "v1=00" "secret" trivial

/-- Claim C7: timingSafeEqual returns true exactly on equal strings: a
length mismatch yields false, and the XOR-accumulated comparison over
all positions vanishes exactly when every character matches, so the
boolean result coincides with string equality on all inputs. -/
theorem timingSafeEqual_iff_string_eq (a b : String) :
    timingSafeEqual a b = true ↔ a = b :=
  timingSafeEqual_eq_true_iff a b

/-- Claim C9: reportOutcome posts to base ++ "/v1/events/" ++ eventId ++
"/outcome", where base is the explicit apiUrl parameter when provided,
else the HOOKRELAY_API_URL environment value when set, else the
hardcoded default, in that precedence order. -/
theorem reportOutcomeUrl_resolution (eventId explicitUrl envUrl : String) :
    reportOutcomeUrl eventId (some explicitUrl) (some envUrl) =
        explicitUrl ++ "/v1/events/" ++ eventId ++ "/outcome" ∧
    reportOutcomeUrl eventId (some explicitUrl) none =
        explicitUrl ++ "/v1/events/" ++ eventId ++ "/outcome" ∧
    reportOutcomeUrl eventId none (some envUrl) =
        envUrl ++ "/v1/events/" ++ eventId ++ "/outcome" ∧
    reportOutcomeUrl eventId none none =
        "https://api.hookrelay.io" ++ "/v1/events/" ++ eventId ++ "/outcome" :=
  ⟨rfl, rfl, rfl, rfl⟩

/-- Claim C10: verifySignature canonicalizes the timestamp before
recomputing the HMAC: whenever the header string parses to n (within
tolerance), the signature computed over the canonical rendering of n is
accepted even for a non-canonical header string, and any accepted
header carries exactly the digest of the canonical signed payload — so
a header whose digest was computed over the non-canonical literal
string is rejected whenever that digest differs. -/
theorem verify_canonicalizes_timestamp (hmac : HmacFun) (now : Int)
    (tsStr payload secret : String) (n : Int)
    (hp : jsParseIntBase10 tsStr = some n)
    (hskew : (now - n).natAbs ≤ 300) :
    verifySignature hmac now tsStr payload (signPayload hmac n payload secret) secret = true ∧
    ∀ sigH, verifySignature hmac now tsStr payload sigH secret = true →
      jsSliceFrom sigH (SIGNATURE_VERSION.length + 1) =
        jsSliceFrom (signPayload hmac n payload secret) (SIGNATURE_VERSION.length + 1) :=
  ⟨verify_accepts_canonical hmac now tsStr payload secret n hp hskew,
   fun sigH hv => verify_requires_canonical_digest hmac now tsStr payload sigH secret n hp hv⟩

/-- Witness for C10 at the non-canonical header string of 300: the
canonical signature is accepted, and the signature over the literal
header string (whose digest differs under this digest function) is
rejected. -/
theorem verify_canonicalizes_timestamp_witness :
    jsParseIntBase10 "0300" = some 300 ∧
    verifySignature hmacFixC 300 "0300" "p"
      (signPayload hmacFixC 300 "p" "s") "s" = true ∧
    verifySignature hmacFixC 300 "0300" "p"
      ("v1=" ++ bytesToHex (hmacFixC "s" ("0300" ++ "." ++ "p"))) "s" = false :=
  ⟨by decide,
   (verify_canonicalizes_timestamp hmacFixC 300 "0300" "p" "s" 300
     (by decide) (by decide)).1,
   by decide⟩

/-! ## Claim theorems: request wrapper -/

/-- Claim C8: whenever any of the event-id, signature or timestamp
headers is absent, the wrapped handler returns 400 with the
missing-headers body, for every provider header value and options —
so the gate fires before the provider check. -/
theorem missing_headers_gate (env : JsEnv) (opts : HookRelayOptions)
    (cb : HookRelayEvent → Except ThrownValue Unit) (req : HookRequest) (sec : String)
    (hsec : truthy env.hookrelaySecret = some sec)
    (hmiss : req.headersGet HEADERS.EVENT_ID = none ∨
             req.headersGet HEADERS.SIGNATURE = none ∨
             req.headersGet HEADERS.TIMESTAMP = none) :
    hookRelayHandler env opts cb req =
      .ok ⟨[], ⟨400, .errorMsg "Missing required Hook Relay headers"⟩⟩ := by
  unfold hookRelayHandler
  rw [hsec]
  rcases hmiss with h | h | h
  · rw [h]
    rfl
  · cases he : truthy (req.headersGet HEADERS.EVENT_ID) with
    | none => rfl
    | some e => rw [h]; rfl
  · cases he : truthy (req.headersGet HEADERS.EVENT_ID) with
    | none => rfl
    | some e =>
      cases hs : truthy (req.headersGet HEADERS.SIGNATURE) with
      | none => rfl
      | some sg => rw [h]; rfl

/-- Witness for C8: the request lacking the event id header gets the
missing-headers 400 even though its provider header (stripe) also
mismatches the configured provider (github). -/
theorem missing_headers_gate_witness :
    hookRelayHandler envFix { provider := "github" } cbOkFix reqMissingFix =
      .ok ⟨[], ⟨400, .errorMsg "Missing required Hook Relay headers"⟩⟩ :=
  missing_headers_gate envFix { provider := "github" } cbOkFix reqMissingFix "sec"
    rfl (Or.inl rfl)

/-- Claim C2: on a request that passes the header checks, the signature
gate precedes JSON parsing: an invalid signature yields 401 with the
invalid-signature body regardless of the body content, and a valid
signature with an unparseable body yields 400 with the invalid-JSON
body. -/
theorem signature_gate_before_json (env : JsEnv) (opts : HookRelayOptions)
    (cb : HookRelayEvent → Except ThrownValue Unit) (req : HookRequest)
    (sec e sg t : String)
    (hsec : truthy env.hookrelaySecret = some sec)
    (he : truthy (req.headersGet HEADERS.EVENT_ID) = some e)
    (hsg : truthy (req.headersGet HEADERS.SIGNATURE) = some sg)
    (ht : truthy (req.headersGet HEADERS.TIMESTAMP) = some t)
    (hp : req.headersGet HEADERS.PROVIDER = some opts.provider) :
    (verifySignature env.hmacSha256 env.now t req.body sg sec = false →
      hookRelayHandler env opts cb req =
        .ok ⟨[], ⟨401, .errorMsg "Invalid signature"⟩⟩) ∧
    (verifySignature env.hmacSha256 env.now t req.body sg sec = true →
      env.jsonParse req.body = none →
      hookRelayHandler env opts cb req =
        .ok ⟨[], ⟨400, .errorMsg "Invalid JSON payload"⟩⟩) := by
  rw [hookRelayHandler_gates env opts cb req sec e sg t hsec he hsg ht hp]
  constructor
  · intro hv
    rw [if_pos hv]
  · intro hv hj
    rw [if_neg (by rw [hv]; simp), hj]

/-- Witness for C2: with the fixture secret and headers, a body of a
different length is rejected 401 before parsing, and a same-length but
unparseable body passes the signature gate and is rejected 400. -/
theorem signature_gate_before_json_witness :
    hookRelayHandler envFix optsFix cbOkFix reqBadSigFix =
      .ok ⟨[], ⟨401, .errorMsg "Invalid signature"⟩⟩ ∧
    hookRelayHandler envFix optsFix cbOkFix reqBadJsonFix =
      .ok ⟨[], ⟨400, .errorMsg "Invalid JSON payload"⟩⟩ :=
  ⟨(signature_gate_before_json envFix optsFix cbOkFix reqBadSigFix "sec" "evt_1"
      (signPayload hmacFixC 300 "\x7b\x7d" "sec") "300" rfl rfl rfl rfl rfl).1 (by decide),
   (signature_gate_before_json envFix optsFix cbOkFix reqBadJsonFix "sec" "evt_1"
      (signPayload hmacFixC 300 "\x7b\x7d" "sec") "300" rfl rfl rfl rfl rfl).2
     (by decide) rfl⟩

/-- Claim C5: when the callback completes, the handler makes exactly
one outcome report, carrying status success and the measured duration,
and returns 202 with the acceptance body — for every value of the
report-success flag, so a failed report never changes the response. -/
theorem callback_success_202 (env : JsEnv) (opts : HookRelayOptions)
    (cb : HookRelayEvent → Except ThrownValue Unit) (req : HookRequest)
    (sec e sg t : String) (payload : JsonValue)
    (hsec : truthy env.hookrelaySecret = some sec)
    (he : truthy (req.headersGet HEADERS.EVENT_ID) = some e)
    (hsg : truthy (req.headersGet HEADERS.SIGNATURE) = some sg)
    (ht : truthy (req.headersGet HEADERS.TIMESTAMP) = some t)
    (hp : req.headersGet HEADERS.PROVIDER = some opts.provider)
    (hv : verifySignature env.hmacSha256 env.now t req.body sg sec = true)
    (hj : env.jsonParse req.body = some payload)
    (hr : ¬(req.headersGet HEADERS.REPLAYED = some "true" ∧ opts.allowReplay = some false))
    (hcb : cb (mkEvent env opts e payload (req.headersGet HEADERS.ATTEMPT)
        (req.headersGet HEADERS.REPLAYED)) = .ok ()) :
    hookRelayHandler env opts cb req =
      .ok ⟨[⟨e, ⟨.success, env.elapsedMs, none⟩⟩], ⟨202, .accepted e⟩⟩ := by
  rw [hookRelayHandler_gates env opts cb req sec e sg t hsec he hsg ht hp]
  rw [if_neg (by rw [hv]; simp)]
  simp only [hj]
  rw [if_neg (by simpa [Bool.and_eq_true, beq_iff_eq] using hr)]
  simp only [hcb]

/-- Witness for C5: the fixture request with a completing callback gets
202 and one success report, both when the outcome POST succeeds and
when it fails. -/
theorem callback_success_202_witness :
    hookRelayHandler envFix optsFix cbOkFix reqFix =
      .ok ⟨[⟨"evt_1", ⟨.success, 5, none⟩⟩], ⟨202, .accepted "evt_1"⟩⟩ ∧
    hookRelayHandler { envFix with reportOk := false } optsFix cbOkFix reqFix =
      .ok ⟨[⟨"evt_1", ⟨.success, 5, none⟩⟩], ⟨202, .accepted "evt_1"⟩⟩ :=
  ⟨callback_success_202 envFix optsFix cbOkFix reqFix "sec" "evt_1"
      (signPayload hmacFixC 300 "\x7b\x7d" "sec") "300" (.obj [])
      rfl rfl rfl rfl rfl (by decide) rfl (by decide) rfl,
   callback_success_202 { envFix with reportOk := false } optsFix cbOkFix reqFix "sec" "evt_1"
      (signPayload hmacFixC 300 "\x7b\x7d" "sec") "300" (.obj [])
      rfl rfl rfl rfl rfl (by decide) rfl (by decide) rfl⟩

/-- Claim C4: when the callback throws, the error never escapes: the
handler still returns normally, makes exactly one failure outcome
report carrying the structured error record (name, message and stack of
an Error instance, or name Error with the stringified value), and
returns 500 with the error message and event id. -/
theorem callback_failure_500 (env : JsEnv) (opts : HookRelayOptions)
    (cb : HookRelayEvent → Except ThrownValue Unit) (req : HookRequest)
    (sec e sg t : String) (payload : JsonValue) (err : ThrownValue)
    (hsec : truthy env.hookrelaySecret = some sec)
    (he : truthy (req.headersGet HEADERS.EVENT_ID) = some e)
    (hsg : truthy (req.headersGet HEADERS.SIGNATURE) = some sg)
    (ht : truthy (req.headersGet HEADERS.TIMESTAMP) = some t)
    (hp : req.headersGet HEADERS.PROVIDER = some opts.provider)
    (hv : verifySignature env.hmacSha256 env.now t req.body sg sec = true)
    (hj : env.jsonParse req.body = some payload)
    (hr : ¬(req.headersGet HEADERS.REPLAYED = some "true" ∧ opts.allowReplay = some false))
    (hcb : cb (mkEvent env opts e payload (req.headersGet HEADERS.ATTEMPT)
        (req.headersGet HEADERS.REPLAYED)) = .error err) :
    hookRelayHandler env opts cb req =
      .ok ⟨[⟨e, ⟨.failure, env.elapsedMs, some (errInfoOf err)⟩⟩],
        ⟨500, .errorWithEvent (errInfoOf err).message e⟩⟩ := by
  rw [hookRelayHandler_gates env opts cb req sec e sg t hsec he hsg ht hp]
  rw [if_neg (by rw [hv]; simp)]
  simp only [hj]
  rw [if_neg (by simpa [Bool.and_eq_true, beq_iff_eq] using hr)]
  simp only [hcb]

/-- Witness for C4: the fixture request with a callback throwing
Error with the database message yields 500 with that message and one
failure report with name Error and the same message. -/
theorem callback_failure_500_witness :
    hookRelayHandler envFix optsFix cbErrFix reqFix =
      .ok ⟨[⟨"evt_1", ⟨.failure, 5,
          some ⟨"Error", "Database connection failed", none⟩⟩⟩],
        ⟨500, .errorWithEvent "Database connection failed" "evt_1"⟩⟩ :=
  callback_failure_500 envFix optsFix cbErrFix reqFix "sec" "evt_1"
    (signPayload hmacFixC 300 "\x7b\x7d" "sec") "300" (.obj [])
    (.errorObj "Error" "Database connection failed" none)
    rfl rfl rfl rfl rfl (by decide) rfl (by decide) rfl

/-- Claim C6: past the earlier gates, the handler returns 400 with the
replay-rejection body exactly when the replayed header is literally
true and allowReplay is explicitly false; in every other combination it
continues past the replay gate to the callback, answering 202 or 500. -/
theorem replay_gate_iff (env : JsEnv) (opts : HookRelayOptions)
    (cb : HookRelayEvent → Except ThrownValue Unit) (req : HookRequest)
    (sec e sg t : String) (payload : JsonValue)
    (hsec : truthy env.hookrelaySecret = some sec)
    (he : truthy (req.headersGet HEADERS.EVENT_ID) = some e)
    (hsg : truthy (req.headersGet HEADERS.SIGNATURE) = some sg)
    (ht : truthy (req.headersGet HEADERS.TIMESTAMP) = some t)
    (hp : req.headersGet HEADERS.PROVIDER = some opts.provider)
    (hv : verifySignature env.hmacSha256 env.now t req.body sg sec = true)
    (hj : env.jsonParse req.body = some payload) :
    (hookRelayHandler env opts cb req =
        .ok ⟨[], ⟨400, .errorMsg "Replayed events are not allowed"⟩⟩
      ↔ (req.headersGet HEADERS.REPLAYED = some "true" ∧
          opts.allowReplay = some false)) ∧
    (¬(req.headersGet HEADERS.REPLAYED = some "true" ∧
        opts.allowReplay = some false) →
      ∃ res, hookRelayHandler env opts cb req = .ok res ∧
        (res.response.status = 202 ∨ res.response.status = 500)) := by
  rw [hookRelayHandler_gates env opts cb req sec e sg t hsec he hsg ht hp]
  rw [if_neg (by rw [hv]; simp)]
  simp only [hj]
  by_cases hr : req.headersGet HEADERS.REPLAYED = some "true" ∧ opts.allowReplay = some false
  · rw [if_pos (by simp [Bool.and_eq_true, beq_iff_eq]; exact hr)]
    exact ⟨iff_of_true rfl hr, fun hn => absurd hr hn⟩
  · rw [if_neg (by simpa [Bool.and_eq_true, beq_iff_eq] using hr)]
    refine ⟨iff_of_false ?_ hr, fun _ => ?_⟩
    · cases hcb : cb (mkEvent env opts e payload (req.headersGet HEADERS.ATTEMPT)
          (req.headersGet HEADERS.REPLAYED)) with
      | ok u => simp [hcb]
      | error er => simp [hcb]
    · cases hcb : cb (mkEvent env opts e payload (req.headersGet HEADERS.ATTEMPT)
          (req.headersGet HEADERS.REPLAYED)) with
      | ok u => exact ⟨_, rfl, Or.inl rfl⟩
      | error er => exact ⟨_, rfl, Or.inr rfl⟩

/-- Witness for C6: the replayed fixture request is rejected 400 when
allowReplay is false, and with default options the same request reaches
the callback and is accepted 202. -/
theorem replay_gate_iff_witness :
    hookRelayHandler envFix optsNoReplayFix cbOkFix reqReplayFix =
      .ok ⟨[], ⟨400, .errorMsg "Replayed events are not allowed"⟩⟩ ∧
    hookRelayHandler envFix optsFix cbOkFix reqReplayFix =
      .ok ⟨[⟨"evt_1", ⟨.success, 5, none⟩⟩], ⟨202, .accepted "evt_1"⟩⟩ :=
  ⟨(replay_gate_iff envFix optsNoReplayFix cbOkFix reqReplayFix "sec" "evt_1"
      (signPayload hmacFixC 300 "\x7b\x7d" "sec") "300" (.obj [])
      rfl rfl rfl rfl rfl (by decide) rfl).1.mpr ⟨rfl, rfl⟩,
   rfl⟩

end HookRelay
